import Mathlib

/-!
Shallow embedding of `lib/api.js` from bitcore-counterparty-wallet-client:
the authenticated request pipeline (header/signature construction, request
dispatch, response/error classification) and the operation surface.

JavaScript values are modelled by `JsValue`; statements that can throw a
`TypeError` (property access on `null`/`undefined`) are modelled in
`Except Fault`; the callback discipline of `_doRequest` is modelled by
returning the single callback invocation a code path performs (or the fault
that prevents any invocation).
-/

namespace CounterpartyClient

mutual
/-- JavaScript values as exchanged by the client: the subset relevant to the
request pipeline (`undefined`, `null`, booleans, integer numbers, strings,
objects, arrays). -/
inductive JsValue where
  | undefined : JsValue
  | null : JsValue
  | bool (b : Bool) : JsValue
  | num (n : Int) : JsValue
  | str (s : String) : JsValue
  | obj (fields : JsFields) : JsValue
  | arr (elems : JsElems) : JsValue
deriving DecidableEq, Repr
/-- The own-property list of a JavaScript object (insertion order, unique keys
in well-formed objects). -/
inductive JsFields where
  | nil : JsFields
  | cons (key : String) (val : JsValue) (rest : JsFields) : JsFields
deriving DecidableEq, Repr
/-- The element list of a JavaScript array. -/
inductive JsElems where
  | nil : JsElems
  | cons (val : JsValue) (rest : JsElems) : JsElems
deriving DecidableEq, Repr
end

/-- First binding of a key in an object's property list. -/
def JsFields.lookup : JsFields → String → Option JsValue
  | .nil, _ => none
  | .cons k v rest, key => if k = key then some v else rest.lookup key

/-- Model of `delete obj[key]`: remove every binding of `key`. -/
def JsFields.erase : JsFields → String → JsFields
  | .nil, _ => .nil
  | .cons k v rest, key => if k = key then rest.erase key else .cons k v (rest.erase key)

/-- Whether a key is bound in the property list (`key in obj`). -/
def JsFields.hasKey : JsFields → String → Bool
  | .nil, _ => false
  | .cons k _ rest, key => k == key || rest.hasKey key

def JsFields.ofList : List (String × JsValue) → JsFields
  | [] => .nil
  | (k, v) :: rest => .cons k v (JsFields.ofList rest)

def JsElems.length : JsElems → Nat
  | .nil => 0
  | .cons _ rest => rest.length + 1

def JsElems.ofList : List JsValue → JsElems
  | [] => .nil
  | v :: rest => .cons v (JsElems.ofList rest)

/-- JavaScript truthiness on the modelled values. -/
def truthy : JsValue → Bool
  | .undefined => false
  | .null => false
  | .bool b => b
  | .num n => n != 0
  | .str s => s != ""
  | .obj _ => true
  | .arr _ => true

/-- JavaScript loose equality to `null` (`x == null`): true exactly for `null`
and `undefined`. -/
def isLooseNull : JsValue → Bool
  | .null => true
  | .undefined => true
  | _ => false

/-- JavaScript loose inequality to `null` (`x != null`): true except for
`null` and `undefined`. -/
def jsNonNull : JsValue → Bool
  | .null => false
  | .undefined => false
  | _ => true

/-- A thrown JavaScript fault; the pipeline can only hit `TypeError`
(property access on `null`/`undefined`). -/
inductive Fault where
  | typeError : Fault
deriving DecidableEq, Repr

/-- Property access `v[key]`: throws on `null`/`undefined`, yields the bound
value on objects (or `undefined` when unbound), and `undefined` on the other
primitives and arrays (none of the accessed names exist there). -/
def jsGet : JsValue → String → Except Fault JsValue
  | .undefined, _ => .error .typeError
  | .null, _ => .error .typeError
  | .obj fs, key => .ok ((fs.lookup key).getD .undefined)
  | _, _ => .ok .undefined

/-- Total variant of property access used by spec-level descriptions: reads of
`null`/`undefined` give `undefined` instead of faulting. -/
def jsGetTotal : JsValue → String → JsValue
  | .obj fs, key => (fs.lookup key).getD .undefined
  | _, _ => .undefined

/-- Reading `v.length` as the argument-validation guards do: array and string
lengths, an explicit `length` property on objects, `undefined` elsewhere. -/
def jsLength : JsValue → JsValue
  | .arr es => .num es.length
  | .str s => .num s.length
  | .obj fs => (fs.lookup "length").getD .undefined
  | _ => .undefined

/-- JavaScript loose equality to zero (`x == 0`). Numeric coercion of strings
is modelled for the numerals that can arise here; `null`/`undefined` are never
loosely equal to `0`. -/
def looseEqZero : JsValue → Bool
  | .num n => n == 0
  | .bool b => !b
  | .str s => s.trim == "" || s.toNat? == some 0
  | _ => false

/- ---------------------------------------------------------------------- -/
/- JSON, modelling the platform's `JSON.parse`                             -/
/- ---------------------------------------------------------------------- -/

def quoteChar : Char := Char.ofNat 34
def backslashChar : Char := Char.ofNat 92
def lbraceChar : Char := Char.ofNat 123
def rbraceChar : Char := Char.ofNat 125

def isJsonWs (c : Char) : Bool :=
  c = ' ' || c = '\t' || c = '\n' || c = '\r'

def skipWs : List Char → List Char
  | [] => []
  | c :: cs => if isJsonWs c then skipWs cs else c :: cs

/-- Characters of a JSON string up to the closing quote. Escape sequences are
outside the modelled fragment and report failure. -/
def parseStringRest : List Char → Option (List Char × List Char)
  | [] => none
  | c :: cs =>
    if c = quoteChar then some ([], cs)
    else if c = backslashChar then none
    else match parseStringRest cs with
         | some (s, rest) => some (c :: s, rest)
         | none => none

def digitsToNat (ds : List Char) : Nat :=
  ds.foldl (fun a c => a * 10 + (c.toNat - 48)) 0

/-- Integer numeral starting at `cs` (digits already known nonempty); fails on
fraction/exponent continuations, which are outside the modelled fragment. -/
def parseNumRest (neg : Bool) (cs : List Char) : Option (JsValue × List Char) :=
  let ds := cs.takeWhile Char.isDigit
  let rest := cs.dropWhile Char.isDigit
  if ds.isEmpty then none
  else
    let n : Int := Int.ofNat (digitsToNat ds)
    match rest with
    | d :: _ =>
      if d = '.' || d = 'e' || d = 'E' then none
      else some (.num (if neg then -n else n), rest)
    | [] => some (.num (if neg then -n else n), [])

mutual
/-- Modelled from the platform's `JSON.parse` (used by the `json: true`
transport option and by `_parseError`): recursive-descent parser over the
modelled fragment of JSON (null, booleans, integer numerals, escape-free
strings, arrays, objects), with fuel for termination. -/
def parseJsonVal : Nat → List Char → Option (JsValue × List Char)
  | 0, _ => none
  | Nat.succ fuel, cs =>
    match skipWs cs with
    | [] => none
    | c :: rest =>
      if c = quoteChar then
        match parseStringRest rest with
        | some (s, r) => some (.str (String.mk s), r)
        | none => none
      else if c = lbraceChar then
        match skipWs rest with
        | d :: r =>
          if d = rbraceChar then some (.obj .nil, r)
          else
            match parseJsonFields fuel (d :: r) with
            | some (fs, r2) => some (.obj fs, r2)
            | none => none
        | [] => none
      else if c = '[' then
        match skipWs rest with
        | d :: r =>
          if d = ']' then some (.arr .nil, r)
          else
            match parseJsonElems fuel (d :: r) with
            | some (es, r2) => some (.arr es, r2)
            | none => none
        | [] => none
      else if c = 'n' then
        match rest with
        | 'u' :: 'l' :: 'l' :: r => some (.null, r)
        | _ => none
      else if c = 't' then
        match rest with
        | 'r' :: 'u' :: 'e' :: r => some (.bool true, r)
        | _ => none
      else if c = 'f' then
        match rest with
        | 'a' :: 'l' :: 's' :: 'e' :: r => some (.bool false, r)
        | _ => none
      else if c = '-' then parseNumRest true rest
      else if c.isDigit then parseNumRest false (c :: rest)
      else none

/-- Members of a JSON object after the opening brace (first member known to
start here). -/
def parseJsonFields : Nat → List Char → Option (JsFields × List Char)
  | 0, _ => none
  | Nat.succ fuel, cs =>
    match skipWs cs with
    | [] => none
    | c :: rest =>
      if c = quoteChar then
        match parseStringRest rest with
        | some (kchars, r1) =>
          match skipWs r1 with
          | d :: r2 =>
            if d = ':' then
              match parseJsonVal fuel r2 with
              | some (v, r3) =>
                match skipWs r3 with
                | e :: r4 =>
                  if e = ',' then
                    match parseJsonFields fuel r4 with
                    | some (fs, r5) => some (.cons (String.mk kchars) v fs, r5)
                    | none => none
                  else if e = rbraceChar then some (.cons (String.mk kchars) v .nil, r4)
                  else none
                | [] => none
              | none => none
            else none
          | [] => none
        | none => none
      else none

/-- Elements of a JSON array after the opening bracket (first element known to
start here). -/
def parseJsonElems : Nat → List Char → Option (JsElems × List Char)
  | 0, _ => none
  | Nat.succ fuel, cs =>
    match parseJsonVal fuel cs with
    | some (v, r1) =>
      match skipWs r1 with
      | e :: r2 =>
        if e = ',' then
          match parseJsonElems fuel r2 with
          | some (es, r3) => some (.cons v es, r3)
          | none => none
        else if e = ']' then some (.cons v .nil, r2)
        else none
      | [] => none
    | none => none
end

/-- Running `JSON.parse` on a whole string: parse one value and require only trailing
whitespace. -/
def jsonParse (s : String) : Option JsValue :=
  match parseJsonVal (s.length + 1) s.data with
  | some (v, rest) => if (skipWs rest).isEmpty then some v else none
  | none => none

/-- The connection-reset sentinel body compared against at line 164:
the string `("error": "read ECONNRESET")` in JSON notation. -/
def resetSentinel : String := "\x7b\"error\":\"read ECONNRESET\"\x7d"

example : jsonParse resetSentinel =
    some (.obj (.cons "error" (.str "read ECONNRESET") .nil)) := by decide

example : jsonParse "" = none := by decide

example : jsonParse "null" = some .null := by decide

/- ---------------------------------------------------------------------- -/
/- Error taxonomy and `API._parseError`                                    -/
/- ---------------------------------------------------------------------- -/

/-- The classified errors the client hands to callers: the kinds from the
`Errors` registry that this pipeline constructs, a registry kind instantiated
from a recognized `code`, and the generic `new Error(x)` wrapper carrying the
value `x` it was built from. -/
inductive ClientError where
  | connectionError : ClientError
  | notFound : ClientError
  | econnresetError (context : JsValue) : ClientError
  | codedError (code : String) : ClientError
  | genericError (message : JsValue) : ClientError
deriving DecidableEq, Repr

/-- Modelled from the spec: the error-kind registry `Errors` (required from
`./errors`, which is not under `src/`) maps recognized string codes to
concrete error constructors. The spec names `NOT_AUTHORIZED` as a recognized
code and lists CONNECTION_ERROR, NOT_FOUND and ECONNRESET_ERROR as members of
the taxonomy; `UNKNOWN_X` is unrecognized. -/
def knownErrorCodes : List String :=
  ["NOT_AUTHORIZED", "CONNECTION_ERROR", "NOT_FOUND", "ECONNRESET_ERROR"]

/-- Whether `Errors[body.code]` is defined: only a recognized string code hits the
registry (its keys are the error names). -/
def isKnownCode : JsValue → Bool
  | .str c => knownErrorCodes.contains c
  | _ => false

/-- The structure `_parseError` works on after its string-parsing step (lines
67-75): a string body is parsed, with the raw string wrapped as
`(error: raw)` on parse failure; other bodies pass through. -/
def parsedForm : JsValue → JsValue
  | .str s => (jsonParse s).getD (.obj (.cons "error" (.str s) .nil))
  | v => v

/-- Model of `API._parseError` (lines 64-90). A falsy body hits the bare `return;`,
modelled as `none`. A string body goes through `JSON.parse`, with the raw
string wrapped as `(error: raw)` on parse failure. Reading `.code` of a
`null` structure (a string body `"null"`) throws, hence `Except`. -/
def parseError (body : JsValue) : Except Fault (Option ClientError) :=
  if !truthy body then .ok none
  else
    let b := parsedForm body
    do
      let code ← jsGet b "code"
      if truthy code then
        match code with
        | .str c =>
          if knownErrorCodes.contains c then .ok (some (.codedError c))
          else .ok (some (.genericError (.str c)))
        | _ => .ok (some (.genericError code))
      else
        let msg ← jsGet b "message"
        .ok (some (.genericError (if truthy msg then msg else b)))

/- ---------------------------------------------------------------------- -/
/- The response-handling callback of `API.prototype._doRequest`            -/
/- ---------------------------------------------------------------------- -/

/-- The raw transport response as seen by the response callback: `res` fields
(`statusCode`, `header`) together with the `body` argument. -/
structure RawResponse where
  statusCode : JsValue
  body : JsValue
  header : JsValue
deriving DecidableEq, Repr

/-- The single callback invocation a path of the response callback performs:
`cb(err)` or `cb(null, body, res.header)`. -/
inductive CbCall where
  | failure (err : ClientError) : CbCall
  | success (body : JsValue) (header : JsValue) : CbCall
deriving DecidableEq, Repr

/-- The response-handling callback of `_doRequest` (lines 140-172); `none`
models an absent `res` (transport failure). A `.error` result is a thrown
`TypeError`, i.e. a path that terminates without invoking the callback. -/
def doRequestHandler : Option RawResponse → Except Fault CbCall
  | none => .ok (.failure .connectionError)
  | some res =>
    if res.statusCode ≠ .num 200 then
      if res.statusCode = .num 404 then .ok (.failure .notFound)
      else if !truthy res.statusCode then .ok (.failure .connectionError)
      else if !truthy res.body then .ok (.failure (.genericError res.statusCode))
      else do
        match ← parseError res.body with
        | some e => .ok (.failure e)
        -- `_parseError` cannot return undefined here: `res.body` is truthy.
        | none => .ok (.failure (.genericError .undefined))
    else
      if res.body = .str resetSentinel then
        -- `JSON.parse(body)` on the sentinel, which always parses.
        .ok (.failure (.econnresetError ((jsonParse resetSentinel).getD .undefined)))
      else do
        let errs ← jsGet res.body "errors"
        if jsNonNull errs then
          let msg ← jsGet res.body "message"
          if jsNonNull msg then .ok (.failure (.genericError msg))
          else .ok (.success res.body res.header)
        else .ok (.success res.body res.header)

/- ---------------------------------------------------------------------- -/
/- `API.prototype._getHeaders` and dispatch                                -/
/- ---------------------------------------------------------------------- -/

/-- Credentials attached to the client: an identity (copayer id) and an
optional signing key, read as JavaScript values (`undefined` when unset). -/
structure Credentials where
  copayerId : JsValue
  requestPrivKey : JsValue
deriving DecidableEq, Repr

/-- Modelled from the spec: the client-identification version string comes
from `package.json`, which is not under `src/`; no claim depends on its
value. -/
def packageVersion : String := "1.0.0"

/-- Modelled from the spec: `API._signRequest` (called at line 103) lives in a
collaborator module that is not under `src/`. The spec states only that the
signature is a deterministic function of (method, path, body, key) that
differs whenever any of the four differs; modelled as the injective packaging
of its four inputs into a value. -/
def signRequest (method url : String) (args : JsValue) (key : JsValue) : JsValue :=
  .arr (.cons (.str method) (.cons (.str url) (.cons args (.cons key .nil))))

/-- Model of `delete args[key]` on a JavaScript value: removes the binding on objects,
is a no-op on other non-nullish values. -/
def jsDelete (v : JsValue) (key : String) : JsValue :=
  match v with
  | .obj fs => .obj (fs.erase key)
  | w => w

/-- Whether a request payload (an object body) still carries a binding for
`key`. -/
def bodyHasKey (v : JsValue) (key : String) : Bool :=
  match v with
  | .obj fs => fs.hasKey key
  | _ => false

/-- Line 100 of `_getHeaders` for an object `args` (where the read cannot
fault): `var key = args._requestPrivKey || this.credentials.requestPrivKey` —
the per-call override wins when truthy, else the credentials' key. -/
def resolvedKey (c : Credentials) (fs : JsFields) : JsValue :=
  if truthy ((fs.lookup "_requestPrivKey").getD .undefined)
  then (fs.lookup "_requestPrivKey").getD .undefined
  else c.requestPrivKey

/-- Model of `API.prototype._getHeaders` (lines 93-109). Returns the headers mapping
together with the `args` value after the side effect (the `delete` of
`_requestPrivKey` mutates the caller's `args`). Reading
`args._requestPrivKey` faults when `args` is nullish. -/
def getHeaders (credentials : Option Credentials) (method url : String)
    (args : JsValue) : Except Fault (List (String × JsValue) × JsValue) :=
  let headers := [("x-client-version", JsValue.str ("bwc-" ++ packageVersion))]
  match credentials with
  | none => .ok (headers, args)
  | some c => do
    let argKey ← jsGet args "_requestPrivKey"
    let key := if truthy argKey then argKey else c.requestPrivKey
    if truthy key then
      let args2 := jsDelete args "_requestPrivKey"
      let sig := signRequest method url args2 key
      .ok (headers ++ [("x-identity", c.copayerId), ("x-signature", sig)], args2)
    else
      .ok (headers ++ [("x-identity", c.copayerId), ("x-signature", .undefined)], args)

/-- The request descriptor `_doRequest` hands to the transport (lines
122-134). -/
structure Dispatched where
  relUrl : String
  headers : List (String × JsValue)
  method : String
  url : String
  body : JsValue
deriving DecidableEq, Repr

def API_VERSION : String := "v1"

/-- Model of `API.prototype._doRequest` lines 122-134: building the request descriptor.
`_getHeaders` runs while the descriptor literal is evaluated (before the
`body:` property), so the descriptor's body is the post-deletion `args`. -/
def doRequest (baseUrl basePath : String) (credentials : Option Credentials)
    (method url : String) (args : JsValue) : Except Fault Dispatched := do
  let (headers, args2) ← getHeaders credentials method url args
  .ok { relUrl := basePath ++ url
        headers := headers
        method := method
        url := baseUrl ++ "/" ++ API_VERSION ++ url
        body := args2 }

/-- The test on line 199 (whether the url contains a query mark after the start): the query mark exists at a
position strictly after the start. -/
def qMarkPos (url : String) : Bool :=
  ((url.data.findIdx? (fun c => c = '?')).getD 0) > 0

/-- Model of `API.prototype._doGetRequest` (lines 198-202). The draw of
`_.random(10000, 99999)` (inclusive on both ends) is passed in as `r`. -/
def doGetRequest (baseUrl basePath : String) (credentials : Option Credentials)
    (url : String) (r : Nat) : Except Fault Dispatched :=
  let url2 := url ++ (if qMarkPos url then "&" else "?")
  let url3 := url2 ++ "r=" ++ toString r
  doRequest baseUrl basePath credentials "get" url3 (.obj .nil)

/-- Model of `API.prototype._doPostRequest` (lines 183-185). -/
def doPostRequest (baseUrl basePath : String) (credentials : Option Credentials)
    (url : String) (args : JsValue) : Except Fault Dispatched :=
  doRequest baseUrl basePath credentials "post" url args

/-- Model of `API.prototype._doPutRequest` (lines 187-189). -/
def doPutRequest (baseUrl basePath : String) (credentials : Option Credentials)
    (url : String) (args : JsValue) : Except Fault Dispatched :=
  doRequest baseUrl basePath credentials "put" url args

/-- Model of `API.prototype._doDeleteRequest` (lines 211-213). -/
def doDeleteRequest (baseUrl basePath : String) (credentials : Option Credentials)
    (url : String) : Except Fault Dispatched :=
  doRequest baseUrl basePath credentials "delete" url (.obj .nil)

/- ---------------------------------------------------------------------- -/
/- Operation surface (bvam operations)                                     -/
/- ---------------------------------------------------------------------- -/

/-- What an operation does before any network activity: either it invokes the
callback locally with an error value (no request is dispatched), or it posts
an argument object to an endpoint. -/
inductive OpAction where
  | localCb (err : JsValue) : OpAction
  | post (url : String) (args : JsValue) : OpAction
deriving DecidableEq, Repr

/-- The locally-raised validation failure: the callback is invoked with this
error value and no request is dispatched (the spec's LOCAL_VALIDATION_ERROR
kind). -/
def localValidationError (msg : String) : OpAction :=
  .localCb (.str msg)

/-- Model of `API.prototype.getBvamInfo` (lines 259-268): the asset-info operation. -/
def getBvamInfo (assets : JsValue) : OpAction :=
  if isLooseNull assets then .localCb (.str "Asset names were invalid")
  else if looseEqZero (jsLength assets) then .localCb (.str "Asset names were invalid")
  else .post "/bvam/info" (.obj (.cons "assets" assets .nil))

/-- Model of `API.prototype.addBvamData` (lines 275-285): the asset-upload
operation. -/
def addBvamData (bvamData : JsValue) : OpAction :=
  if isLooseNull bvamData then .localCb (.str "bvam data is required")
  else .post "/bvam" (.obj (.cons "bvam" bvamData .nil))

/- ---------------------------------------------------------------------- -/
/- Spec-level description of error-body derivation (refinement target)     -/
/- ---------------------------------------------------------------------- -/

/-- The error derivation exactly as the spec's words describe it (§4.3
error-body parsing), stated as a total function for comparison with the
source-derived `parseError`: a string body is parsed, with parse failure
wrapping the raw string; a recognized `code` instantiates its kind; an
unrecognized `code` gives a generic error whose message is the code; absent
`code` gives a generic error using `message`, or the whole body when
`message` is absent. -/
def specErrorDerivation (body : JsValue) : ClientError :=
  let b := parsedForm body
  let code := jsGetTotal b "code"
  if truthy code then
    match code with
    | .str c =>
      if knownErrorCodes.contains c then .codedError c
      else .genericError (.str c)
    | _ => .genericError code
  else
    let msg := jsGetTotal b "message"
    .genericError (if truthy msg then msg else b)

/- ---------------------------------------------------------------------- -/
/- Helper lemmas                                                           -/
/- ---------------------------------------------------------------------- -/

instance : DecidableEq (Except Fault CbCall) := fun a b =>
  match a, b with
  | .ok x, .ok y => decidable_of_iff (x = y) (by simp)
  | .error x, .error y => decidable_of_iff (x = y) (by simp)
  | .ok _, .error _ => isFalse (by simp)
  | .error _, .ok _ => isFalse (by simp)

theorem jsNonNull_iff (v : JsValue) : jsNonNull v = true ↔ v ≠ .null ∧ v ≠ .undefined := by
  cases v <;> simp [jsNonNull]

theorem jsGet_eq_total (v : JsValue) (k : String) (h : jsNonNull v = true) :
    jsGet v k = .ok (jsGetTotal v k) := by
  cases v <;> simp_all [jsGet, jsGetTotal, jsNonNull]

theorem falsy_ne_num (v : JsValue) (n : Int) (hn : n ≠ 0) (h : truthy v = false) :
    v ≠ .num n := by
  intro he
  subst he
  simp [truthy] at h
  exact hn h

theorem hasKey_erase : ∀ (fs : JsFields) (k : String), (fs.erase k).hasKey k = false
  | .nil, _ => rfl
  | .cons key v rest, k => by
    by_cases hk : key = k
    · simp [JsFields.erase, hk, hasKey_erase rest k]
    · simp [JsFields.erase, hk, JsFields.hasKey, hasKey_erase rest k]

/-- Running `_getHeaders` with credentials and a resolvable signing key, on an object
`args`: identity and signature headers are added, and the override entry is
deleted from `args` before the signature is computed over it. -/
theorem getHeaders_obj_signed (c : Credentials) (method url : String) (fs : JsFields)
    (h : truthy (resolvedKey c fs) = true) :
    getHeaders (some c) method url (.obj fs) =
      .ok ([("x-client-version", .str ("bwc-" ++ packageVersion)),
            ("x-identity", c.copayerId),
            ("x-signature", signRequest method url (jsDelete (.obj fs) "_requestPrivKey")
              (resolvedKey c fs))],
           jsDelete (.obj fs) "_requestPrivKey") := by
  unfold resolvedKey at h
  simp only [getHeaders, jsGet, bind, Except.bind]
  rw [if_pos h]
  rfl

/-- Running `_getHeaders` with credentials but no resolvable signing key, on an object
`args`: the identity header is added and `x-signature` is assigned
`undefined`; `args` is left untouched. -/
theorem getHeaders_obj_unsigned (c : Credentials) (method url : String) (fs : JsFields)
    (h : truthy (resolvedKey c fs) = false) :
    getHeaders (some c) method url (.obj fs) =
      .ok ([("x-client-version", .str ("bwc-" ++ packageVersion)),
            ("x-identity", c.copayerId), ("x-signature", .undefined)], .obj fs) := by
  unfold resolvedKey at h
  simp only [getHeaders, jsGet, bind, Except.bind]
  rw [if_neg (by simp [h])]
  rfl

/-- On an object `args`, header construction never faults, and the dispatched
descriptor has the concatenated absolute URL `base ++ "/v1" ++ path`. -/
theorem doRequest_obj (baseUrl basePath : String) (credentials : Option Credentials)
    (method url : String) (fs : JsFields) :
    ∃ hs body2, doRequest baseUrl basePath credentials method url (.obj fs) =
      .ok { relUrl := basePath ++ url, headers := hs, method := method,
            url := baseUrl ++ "/v1" ++ url, body := body2 } := by
  have hurl : baseUrl ++ "/" ++ API_VERSION ++ url = baseUrl ++ "/v1" ++ url := by
    simp [API_VERSION, String.append_assoc]
  match credentials with
  | none =>
    have h1 : doRequest baseUrl basePath none method url (.obj fs) =
        .ok { relUrl := basePath ++ url,
              headers := [("x-client-version", .str ("bwc-" ++ packageVersion))],
              method := method, url := baseUrl ++ "/v1" ++ url, body := .obj fs } := by
      simp only [doRequest, getHeaders, bind, Except.bind, hurl]
    exact ⟨_, _, h1⟩
  | some c =>
    by_cases h : truthy (resolvedKey c fs) = true
    · have h1 : doRequest baseUrl basePath (some c) method url (.obj fs) =
          .ok { relUrl := basePath ++ url,
                headers := [("x-client-version", .str ("bwc-" ++ packageVersion)),
                            ("x-identity", c.copayerId),
                            ("x-signature", signRequest method url
                              (jsDelete (.obj fs) "_requestPrivKey") (resolvedKey c fs))],
                method := method, url := baseUrl ++ "/v1" ++ url,
                body := jsDelete (.obj fs) "_requestPrivKey" } := by
        simp only [doRequest, bind, Except.bind, getHeaders_obj_signed c method url fs h, hurl]
      exact ⟨_, _, h1⟩
    · have h1 : doRequest baseUrl basePath (some c) method url (.obj fs) =
          .ok { relUrl := basePath ++ url,
                headers := [("x-client-version", .str ("bwc-" ++ packageVersion)),
                            ("x-identity", c.copayerId), ("x-signature", .undefined)],
                method := method, url := baseUrl ++ "/v1" ++ url, body := .obj fs } := by
        simp only [doRequest, bind, Except.bind,
          getHeaders_obj_unsigned c method url fs (by simpa using h), hurl]
      exact ⟨_, _, h1⟩

/- ---------------------------------------------------------------------- -/
/- Claim theorems                                                          -/
/- ---------------------------------------------------------------------- -/

/-- C1 (code bug): the claim says every code path of the response-handling
callback invokes the callback exactly once with either a success or a single
classified error. The code violates it: on a 200-status response whose body is
empty (`undefined`, as `json: true` yields for an empty payload), line 167
reads `body.errors` and throws a `TypeError`, so the callback terminates
without ever being invoked — neither outcome is delivered. -/
theorem callback_skipped_on_undef_200_body :
    doRequestHandler (some { statusCode := .num 200, body := .undefined, header := .obj .nil }) =
      .error .typeError := by rfl

/-- C4: response classification yields CONNECTION_ERROR when no response
object was received, and when a response is present but its status code is
falsy; it yields NOT_FOUND whenever the status code is 404, regardless of the
body; the no-response check is the first check, before any status-code
inspection. -/
theorem classify_connection_and_not_found (res : RawResponse) :
    doRequestHandler none = .ok (.failure .connectionError) ∧
    (truthy res.statusCode = false →
      doRequestHandler (some res) = .ok (.failure .connectionError)) ∧
    (res.statusCode = .num 404 →
      doRequestHandler (some res) = .ok (.failure .notFound)) := by
  refine ⟨rfl, fun h => ?_, fun h => ?_⟩
  · have h200 := falsy_ne_num res.statusCode 200 (by decide) h
    have h404 := falsy_ne_num res.statusCode 404 (by decide) h
    simp [doRequestHandler, h200, h404, h]
  · simp [doRequestHandler, h]

/-- Witness for C4: a dropped connection (status `undefined`) classifies to
CONNECTION_ERROR; a 404 with a non-empty body classifies to NOT_FOUND. -/
theorem classify_connection_and_not_found_witness :
    doRequestHandler (some { statusCode := .undefined, body := .str "x", header := .obj .nil }) =
      .ok (.failure .connectionError) ∧
    doRequestHandler (some { statusCode := .num 404, body := .str "gone", header := .obj .nil }) =
      .ok (.failure .notFound) :=
  ⟨(classify_connection_and_not_found
      { statusCode := .undefined, body := .str "x", header := .obj .nil }).2.1 (by decide),
   (classify_connection_and_not_found
      { statusCode := .num 404, body := .str "gone", header := .obj .nil }).2.2 (by decide)⟩

/-- C10: whenever credentials are attached, the headers mapping built for an
outgoing request binds `x-identity` to the credentials' copayer id — whether
or not a signing key resolves. -/
theorem identity_header_whenever_credentials (c : Credentials) (method url : String)
    (fs : JsFields) :
    ∃ hs args2, getHeaders (some c) method url (.obj fs) = .ok (hs, args2) ∧
      hs.lookup "x-identity" = some c.copayerId := by
  by_cases h : truthy (resolvedKey c fs) = true
  · exact ⟨_, _, getHeaders_obj_signed c method url fs h, rfl⟩
  · exact ⟨_, _, getHeaders_obj_unsigned c method url fs (by simpa using h), rfl⟩

/-- C2: with credentials attached and a resolvable signing key (the per-call
`_requestPrivKey` entry of the body mapping when truthy, overriding the
credentials' own key, else the credentials' key), header construction
completes without fault and the headers bind `x-identity` to the credentials'
identity and `x-signature` to the signature computed with that key over
(method, path, body) — the body as transmitted, i.e. with the override entry
removed. -/
theorem signed_header_construction (c : Credentials) (method url : String)
    (fs : JsFields) (h : truthy (resolvedKey c fs) = true) :
    ∃ hs, getHeaders (some c) method url (.obj fs) =
        .ok (hs, jsDelete (.obj fs) "_requestPrivKey") ∧
      hs.lookup "x-identity" = some c.copayerId ∧
      hs.lookup "x-signature" =
        some (signRequest method url (jsDelete (.obj fs) "_requestPrivKey")
          (resolvedKey c fs)) :=
  ⟨_, getHeaders_obj_signed c method url fs h, rfl, rfl⟩

/-- Witness for C2: a per-call override key inside the body mapping resolves
(overriding the credentials' key) and the produced headers carry the identity
and the signature over the stripped body with that key. -/
theorem signed_header_construction_witness :
    truthy (resolvedKey { copayerId := .str "copayer-1", requestPrivKey := .str "credKey" }
      (.cons "_requestPrivKey" (.str "overrideKey") (.cons "address" (.str "1abc") .nil))) = true ∧
    (∃ hs, getHeaders (some { copayerId := .str "copayer-1", requestPrivKey := .str "credKey" })
        "post" "/transactions"
        (.obj (.cons "_requestPrivKey" (.str "overrideKey") (.cons "address" (.str "1abc") .nil))) =
        .ok (hs, jsDelete (.obj (.cons "_requestPrivKey" (.str "overrideKey")
          (.cons "address" (.str "1abc") .nil))) "_requestPrivKey") ∧
      hs.lookup "x-identity" = some (.str "copayer-1") ∧
      hs.lookup "x-signature" =
        some (signRequest "post" "/transactions"
          (jsDelete (.obj (.cons "_requestPrivKey" (.str "overrideKey")
            (.cons "address" (.str "1abc") .nil))) "_requestPrivKey")
          (resolvedKey { copayerId := .str "copayer-1", requestPrivKey := .str "credKey" }
            (.cons "_requestPrivKey" (.str "overrideKey") (.cons "address" (.str "1abc") .nil))))) :=
  ⟨by decide,
   signed_header_construction
     { copayerId := .str "copayer-1", requestPrivKey := .str "credKey" }
     "post" "/transactions"
     (.cons "_requestPrivKey" (.str "overrideKey") (.cons "address" (.str "1abc") .nil))
     (by decide)⟩

/-- C7 counterexample: with credentials attached and no resolvable key, the
claim says `x-signature` is omitted from the returned headers mapping; in the
code the assignment `headers['x-signature'] = reqSignature` still runs, so
the mapping does contain the `x-signature` key, bound to `undefined`. -/
theorem signature_header_not_omitted :
    getHeaders (some { copayerId := .str "copayer-1", requestPrivKey := .undefined })
        "get" "/version" (.obj .nil) =
      .ok ([("x-client-version", .str ("bwc-" ++ packageVersion)),
            ("x-identity", .str "copayer-1"), ("x-signature", .undefined)], .obj .nil) ∧
    (List.lookup "x-signature"
      [("x-client-version", JsValue.str ("bwc-" ++ packageVersion)),
       ("x-identity", JsValue.str "copayer-1"),
       ("x-signature", JsValue.undefined)]).isSome = true :=
  ⟨rfl, rfl⟩

/-- C7 (amended): with credentials attached but no resolvable signing key,
header construction does not fault; the headers bind `x-identity` to the
identity and bind `x-signature` to `undefined` — the key is present in the
mapping but carries no signature value (rather than being omitted). -/
theorem unsigned_header_construction (c : Credentials) (method url : String)
    (fs : JsFields) (h : truthy (resolvedKey c fs) = false) :
    getHeaders (some c) method url (.obj fs) =
      .ok ([("x-client-version", .str ("bwc-" ++ packageVersion)),
            ("x-identity", c.copayerId), ("x-signature", .undefined)], .obj fs) :=
  getHeaders_obj_unsigned c method url fs h

/-- Witness for C7 (amended): credentials with no key, an empty body
mapping. -/
theorem unsigned_header_construction_witness :
    truthy (resolvedKey { copayerId := .str "copayer-1", requestPrivKey := .undefined } .nil) = false ∧
    getHeaders (some { copayerId := .str "copayer-1", requestPrivKey := .undefined })
        "get" "/version" (.obj .nil) =
      .ok ([("x-client-version", .str ("bwc-" ++ packageVersion)),
            ("x-identity", .str "copayer-1"), ("x-signature", .undefined)], .obj .nil) :=
  ⟨by decide,
   unsigned_header_construction
     { copayerId := .str "copayer-1", requestPrivKey := .undefined } "get" "/version" .nil
     (by decide)⟩

/-- C3 counterexample: the claim says a 200-status response that is neither
the sentinel nor an `errors`+`message` body yields success carrying the body.
A 200 response with a `null` body (a valid JSON payload `null`) is such a
case, yet the code throws a `TypeError` at `body.errors` instead of
succeeding. -/
theorem ok200_null_body_not_success :
    doRequestHandler (some { statusCode := .num 200, body := .null, header := .obj .nil }) =
      .error .typeError ∧
    doRequestHandler (some { statusCode := .num 200, body := .null, header := .obj .nil }) ≠
      .ok (.success .null (.obj .nil)) := by decide

/-- C3 (amended): for every 200-status response whose body is not nullish,
the operation yields an error iff the body is the literal connection-reset
sentinel string (ECONNRESET_ERROR carrying the parsed body) or has both a
non-null `errors` and a non-null `message` field (a generic error wrapping
`message`); otherwise success carrying the body with the response header
mapping as side channel; the sentinel check precedes the `errors`+`message`
check. -/
theorem ok200_classification (body hdr : JsValue) (hb : jsNonNull body = true) :
    (body = .str resetSentinel →
      doRequestHandler (some { statusCode := .num 200, body := body, header := hdr }) =
        .ok (.failure (.econnresetError (.obj (.cons "error" (.str "read ECONNRESET") .nil))))) ∧
    (body ≠ .str resetSentinel →
      jsNonNull (jsGetTotal body "errors") = true →
      jsNonNull (jsGetTotal body "message") = true →
      doRequestHandler (some { statusCode := .num 200, body := body, header := hdr }) =
        .ok (.failure (.genericError (jsGetTotal body "message")))) ∧
    (body ≠ .str resetSentinel →
      ¬(jsNonNull (jsGetTotal body "errors") = true ∧
        jsNonNull (jsGetTotal body "message") = true) →
      doRequestHandler (some { statusCode := .num 200, body := body, header := hdr }) =
        .ok (.success body hdr)) := by
  have hge := jsGet_eq_total body "errors" hb
  have hgm := jsGet_eq_total body "message" hb
  refine ⟨fun hs => ?_, fun hs he hm => ?_, fun hs hnem => ?_⟩
  · subst hs; rfl
  · simp [doRequestHandler, hs, hge, hgm, he, hm, bind, Except.bind]
  · by_cases he : jsNonNull (jsGetTotal body "errors") = true
    · have hm : jsNonNull (jsGetTotal body "message") = false := by
        rcases Bool.eq_false_or_eq_true (jsNonNull (jsGetTotal body "message")) with h | h
        · exact absurd ⟨he, h⟩ hnem
        · exact h
      simp [doRequestHandler, hs, hge, hgm, he, hm, bind, Except.bind]
    · have he2 : jsNonNull (jsGetTotal body "errors") = false := by simpa using he
      simp [doRequestHandler, hs, hge, hgm, he2, bind, Except.bind]

/-- Witness for C3 (amended): the sentinel body yields ECONNRESET_ERROR with
the parsed object; an `errors`+`message` body yields a generic error wrapping
the message despite the 200 status; a plain body yields success carrying the
body and the header mapping. -/
theorem ok200_classification_witness :
    doRequestHandler (some ⟨.num 200, .str resetSentinel, .obj .nil⟩) =
      .ok (.failure (.econnresetError (.obj (.cons "error" (.str "read ECONNRESET") .nil)))) ∧
    doRequestHandler (some ⟨.num 200,
        .obj (.cons "errors" (.arr .nil) (.cons "message" (.str "bad input") .nil)),
        .obj .nil⟩) =
      .ok (.failure (.genericError (.str "bad input"))) ∧
    doRequestHandler (some ⟨.num 200, .obj (.cons "x" (.num 1) .nil),
        .obj (.cons "h" (.str "v") .nil)⟩) =
      .ok (.success (.obj (.cons "x" (.num 1) .nil)) (.obj (.cons "h" (.str "v") .nil))) :=
  ⟨(ok200_classification (.str resetSentinel) (.obj .nil) (by decide)).1 rfl,
   (ok200_classification (.obj (.cons "errors" (.arr .nil)
       (.cons "message" (.str "bad input") .nil))) (.obj .nil) (by decide)).2.1
     (by decide) (by decide) (by decide),
   (ok200_classification (.obj (.cons "x" (.num 1) .nil))
       (.obj (.cons "h" (.str "v") .nil)) (by decide)).2.2 (by decide) (by decide)⟩

/-- Running `_parseError` on a truthy body whose parsed structure is not nullish
agrees with the spec-level derivation (and does not fault). -/
theorem parseError_derives (body : JsValue) (h4 : truthy body = true)
    (h5 : jsNonNull (parsedForm body) = true) :
    parseError body = .ok (some (specErrorDerivation body)) := by
  have hc := jsGet_eq_total (parsedForm body) "code" h5
  have hm := jsGet_eq_total (parsedForm body) "message" h5
  unfold parseError specErrorDerivation
  rw [if_neg (by simp [h4])]
  simp only [bind, Except.bind, hc, hm]
  by_cases hcode : truthy (jsGetTotal (parsedForm body) "code") = true
  · rw [if_pos hcode, if_pos hcode]
    cases hx : jsGetTotal (parsedForm body) "code" <;> (try simp) <;> split <;> rfl
  · rw [if_neg hcode, if_neg hcode]

/-- C5 counterexample: at status 500 with the (truthy-status, string) body
`""`, the claim's derivation rules applied to the body give a generic error
wrapping `(error: "")`, but the code takes the falsy-body branch first and
returns a generic error wrapping the status code 500 — the returned error is
not derived from the body as claimed. -/
theorem error_body_empty_string_counterexample :
    doRequestHandler (some { statusCode := .num 500, body := .str "", header := .obj .nil }) =
      .ok (.failure (.genericError (.num 500))) ∧
    specErrorDerivation (.str "") = .genericError (.obj (.cons "error" (.str "") .nil)) ∧
    ClientError.genericError (.num 500) ≠
      ClientError.genericError (.obj (.cons "error" (.str "") .nil)) := by decide

/-- C5 (amended): for every response with a truthy status code other than 200
and 404 and a truthy body whose parsed structure is not `null`, the returned
error is derived from the body exactly as the claim describes (string bodies
parsed, with parse failure wrapping the raw string; a recognized `code`
instantiates its kind; an unrecognized `code` gives a generic error with the
code as message; absent `code` uses `message`, or the whole body when
`message` is absent). A falsy body instead yields a generic error wrapping
the status code, and a string body parsing to literal `null` makes the
handler fault. -/
theorem error_body_derivation (status body hdr : JsValue)
    (h1 : truthy status = true) (h2 : status ≠ .num 200) (h3 : status ≠ .num 404)
    (h4 : truthy body = true) (h5 : jsNonNull (parsedForm body) = true) :
    doRequestHandler (some { statusCode := status, body := body, header := hdr }) =
      .ok (.failure (specErrorDerivation body)) := by
  simp only [doRequestHandler]
  rw [if_pos h2, if_neg h3, if_neg (by simp [h1]), if_neg (by simp [h4])]
  simp only [bind, Except.bind, parseError_derives body h4 h5]

/-- Witness for C5 (amended): a recognized code (`NOT_AUTHORIZED`)
instantiates its registry kind; an unrecognized code (`UNKNOWN_X`) yields a
generic error whose message is the code. -/
theorem error_body_derivation_witness :
    truthy (.num 403) = true ∧ (JsValue.num 403) ≠ .num 200 ∧ (JsValue.num 403) ≠ .num 404 ∧
    truthy (.obj (.cons "code" (.str "NOT_AUTHORIZED") .nil)) = true ∧
    jsNonNull (parsedForm (.obj (.cons "code" (.str "NOT_AUTHORIZED") .nil))) = true ∧
    doRequestHandler (some ⟨.num 403,
        .obj (.cons "code" (.str "NOT_AUTHORIZED") .nil), .obj .nil⟩) =
      .ok (.failure (.codedError "NOT_AUTHORIZED")) ∧
    doRequestHandler (some ⟨.num 500,
        .obj (.cons "code" (.str "UNKNOWN_X") .nil), .obj .nil⟩) =
      .ok (.failure (.genericError (.str "UNKNOWN_X"))) :=
  ⟨by decide, by decide, by decide, by decide, by decide,
   error_body_derivation (.num 403) (.obj (.cons "code" (.str "NOT_AUTHORIZED") .nil))
     (.obj .nil) (by decide) (by decide) (by decide) (by decide) (by decide),
   error_body_derivation (.num 500) (.obj (.cons "code" (.str "UNKNOWN_X") .nil))
     (.obj .nil) (by decide) (by decide) (by decide) (by decide) (by decide)⟩

/-- C6 counterexample: without credentials attached, `_getHeaders` never runs
its `delete`, so a per-call `_requestPrivKey` entry stays in the dispatched
request body — the claim's "regardless of whether credentials are attached"
fails. -/
theorem override_key_not_stripped_without_credentials :
    doRequest "http://localhost:3232/counterparty/api" "/counterparty/api" none "post" "/bvam"
        (.obj (.cons "_requestPrivKey" (.str "sekrit") .nil)) =
      .ok { relUrl := "/counterparty/api/bvam",
            headers := [("x-client-version", .str ("bwc-" ++ packageVersion))],
            method := "post",
            url := "http://localhost:3232/counterparty/api/v1/bvam",
            body := .obj (.cons "_requestPrivKey" (.str "sekrit") .nil) } ∧
    bodyHasKey (.obj (.cons "_requestPrivKey" (.str "sekrit") .nil)) "_requestPrivKey" = true :=
  ⟨rfl, rfl⟩

/-- C6 (amended): when credentials are attached and the body mapping carries a
truthy `_requestPrivKey` override, the entry is removed from the body before
the request is dispatched, so the transmitted payload does not contain the
key; without credentials the entry is left in place. -/
theorem override_key_stripped_with_credentials (c : Credentials)
    (baseUrl basePath method url : String) (fs : JsFields)
    (h : truthy ((fs.lookup "_requestPrivKey").getD .undefined) = true) :
    ∃ d, doRequest baseUrl basePath (some c) method url (.obj fs) = .ok d ∧
      d.body = .obj (fs.erase "_requestPrivKey") ∧
      bodyHasKey d.body "_requestPrivKey" = false := by
  have hk : truthy (resolvedKey c fs) = true := by
    unfold resolvedKey
    rw [if_pos h]
    exact h
  have h1 : doRequest baseUrl basePath (some c) method url (.obj fs) =
      .ok { relUrl := basePath ++ url,
            headers := [("x-client-version", .str ("bwc-" ++ packageVersion)),
                        ("x-identity", c.copayerId),
                        ("x-signature", signRequest method url
                          (jsDelete (.obj fs) "_requestPrivKey") (resolvedKey c fs))],
            method := method, url := baseUrl ++ "/" ++ API_VERSION ++ url,
            body := jsDelete (.obj fs) "_requestPrivKey" } := by
    simp only [doRequest, bind, Except.bind, getHeaders_obj_signed c method url fs hk]
  exact ⟨_, h1, rfl, by simp [jsDelete, bodyHasKey, hasKey_erase]⟩

/-- Witness for C6 (amended): credentials attached, override key in the body;
the dispatched body no longer binds `_requestPrivKey`. -/
theorem override_key_stripped_with_credentials_witness :
    truthy (((JsFields.cons "_requestPrivKey" (.str "sekrit") .nil).lookup
      "_requestPrivKey").getD .undefined) = true ∧
    (∃ d, doRequest "http://h/api" "/api"
        (some { copayerId := .str "cid", requestPrivKey := .undefined }) "post" "/bvam"
        (.obj (.cons "_requestPrivKey" (.str "sekrit") .nil)) = .ok d ∧
      d.body = .obj ((JsFields.cons "_requestPrivKey" (.str "sekrit") .nil).erase
        "_requestPrivKey") ∧
      bodyHasKey d.body "_requestPrivKey" = false) :=
  ⟨by decide,
   override_key_stripped_with_credentials { copayerId := .str "cid", requestPrivKey := .undefined }
     "http://h/api" "/api" "post" "/bvam"
     (.cons "_requestPrivKey" (.str "sekrit") .nil) (by decide)⟩

/-- C8: the asset-info operation with a nullish or empty asset-name list, and
the asset-upload operation with an absent payload, invoke the callback with
the locally-raised validation error and dispatch nothing; with a non-empty or
present argument they instead POST the wrapped argument to their endpoint. -/
theorem bvam_local_validation :
    getBvamInfo .null = localValidationError "Asset names were invalid" ∧
    getBvamInfo .undefined = localValidationError "Asset names were invalid" ∧
    getBvamInfo (.arr .nil) = localValidationError "Asset names were invalid" ∧
    addBvamData .null = localValidationError "bvam data is required" ∧
    addBvamData .undefined = localValidationError "bvam data is required" ∧
    (∀ es : JsElems, es ≠ .nil →
      getBvamInfo (.arr es) = .post "/bvam/info" (.obj (.cons "assets" (.arr es) .nil))) ∧
    (∀ v : JsValue, isLooseNull v = false →
      addBvamData v = .post "/bvam" (.obj (.cons "bvam" v .nil))) := by
  refine ⟨rfl, rfl, rfl, rfl, rfl, fun es hes => ?_, fun v hv => ?_⟩
  · cases es with
    | nil => exact absurd rfl hes
    | cons a rest =>
      simp [getBvamInfo, isLooseNull, jsLength, JsElems.length, looseEqZero]
      omega
  · simp [addBvamData, hv]

/-- Witness for C8: a one-element asset list POSTs `(assets: [...])` to
`/bvam/info`; a present payload POSTs `(bvam: ...)` to `/bvam`. -/
theorem bvam_local_validation_witness :
    (JsElems.cons (.str "XCP") .nil ≠ JsElems.nil) ∧
    getBvamInfo (.arr (.cons (.str "XCP") .nil)) =
      .post "/bvam/info" (.obj (.cons "assets" (.arr (.cons (.str "XCP") .nil)) .nil)) ∧
    isLooseNull (.obj .nil) = false ∧
    addBvamData (.obj .nil) = .post "/bvam" (.obj (.cons "bvam" (.obj .nil) .nil)) :=
  ⟨by decide,
   bvam_local_validation.2.2.2.2.2.1 (.cons (.str "XCP") .nil) (by decide),
   by decide,
   bvam_local_validation.2.2.2.2.2.2 (.obj .nil) (by decide)⟩

/-- C9: every GET dispatches to the concatenation of the configured base URL,
the fixed `/v1` segment and the operation path, with the cache-busting query
parameter `r` appended (its value the random draw, which lies between 10000
and 99999 inclusive); POST, PUT and DELETE dispatch to the concatenation
without any appended parameter. -/
theorem get_url_cache_buster (baseUrl basePath path : String)
    (credentials : Option Credentials) (r : Nat)
    (h1 : 10000 ≤ r) (h2 : r ≤ 99999) :
    (∃ d, doGetRequest baseUrl basePath credentials path r = .ok d ∧ d.method = "get" ∧
      d.url = baseUrl ++ "/v1" ++ (path ++ (if qMarkPos path then "&" else "?") ++
        "r=" ++ toString r)) ∧
    (∀ fs : JsFields, ∃ d, doPostRequest baseUrl basePath credentials path (.obj fs) = .ok d ∧
      d.method = "post" ∧ d.url = baseUrl ++ "/v1" ++ path) ∧
    (∀ fs : JsFields, ∃ d, doPutRequest baseUrl basePath credentials path (.obj fs) = .ok d ∧
      d.method = "put" ∧ d.url = baseUrl ++ "/v1" ++ path) ∧
    (∃ d, doDeleteRequest baseUrl basePath credentials path = .ok d ∧
      d.method = "delete" ∧ d.url = baseUrl ++ "/v1" ++ path) := by
  refine ⟨?_, fun fs => ?_, fun fs => ?_, ?_⟩
  · obtain ⟨hs, body2, hd⟩ := doRequest_obj baseUrl basePath credentials "get"
      (path ++ (if qMarkPos path then "&" else "?") ++ "r=" ++ toString r) .nil
    exact ⟨_, hd, rfl, by simp [String.append_assoc]⟩
  · obtain ⟨hs, body2, hd⟩ := doRequest_obj baseUrl basePath credentials "post" path fs
    exact ⟨_, hd, rfl, rfl⟩
  · obtain ⟨hs, body2, hd⟩ := doRequest_obj baseUrl basePath credentials "put" path fs
    exact ⟨_, hd, rfl, rfl⟩
  · obtain ⟨hs, body2, hd⟩ := doRequest_obj baseUrl basePath credentials "delete" path .nil
    exact ⟨_, hd, rfl, rfl⟩

/-- Witness for C9: the spec's own example — for path `/balances/abc` and the
draw 12345, the dispatched request is a GET to
`(base)/v1/balances/abc?r=12345`; a POST to the same path carries no such
parameter. -/
theorem get_url_cache_buster_witness :
    (10000 ≤ 12345) ∧ (12345 ≤ 99999) ∧
    (∃ d, doGetRequest "http://localhost:3232/counterparty/api" "/counterparty/api" none
        "/balances/abc" 12345 = .ok d ∧ d.method = "get" ∧
      d.url = "http://localhost:3232/counterparty/api" ++ "/v1" ++ ("/balances/abc" ++
        (if qMarkPos "/balances/abc" then "&" else "?") ++ "r=" ++ toString 12345)) ∧
    (∃ d, doPostRequest "http://localhost:3232/counterparty/api" "/counterparty/api" none
        "/balances/abc" (.obj .nil) = .ok d ∧ d.method = "post" ∧
      d.url = "http://localhost:3232/counterparty/api" ++ "/v1" ++ "/balances/abc") :=
  ⟨by decide, by decide,
   (get_url_cache_buster "http://localhost:3232/counterparty/api" "/counterparty/api"
     "/balances/abc" none 12345 (by decide) (by decide)).1,
   (get_url_cache_buster "http://localhost:3232/counterparty/api" "/counterparty/api"
     "/balances/abc" none 12345 (by decide) (by decide)).2.1 .nil⟩

end CounterpartyClient
